import Mathlib

/-!
Verification of the routing and orchestration engine of the multi-agent
monitoring system (src/agents/supervisor_v2.py, src/agents/supervisor_agent.py,
src/skills/skill_manager.py) against its natural-language specification.

Python strings are modelled as lists of characters (`Str`); the Python
substring test `kw in text` is `strIn`.  Python values flowing through the
engine (JSON-decoded routing plans, skill contexts and results) are modelled
by the inductive `PyVal`.  Python exceptions are modelled with `Except Str`:
`.error msg` is a raised exception carrying `str(e) = msg`, and a
`try/except` block is a `match` on that value.  The two external
collaborators — the LLM (`generate(prompt) -> text`) and the standard
library's `json.loads` — are parameters of the definitions: an LLM oracle
`Str → Except Str Str` and a JSON decoder `Str → Except Str (List (Str × PyVal))`
(the decoded text always starts with `\x7b` and ends with `\x7d`, so a
successful `json.loads` always yields an object, i.e. a dict).
-/

set_option autoImplicit false

namespace Monitoring

/-- Python strings, as lists of characters. -/
abbrev Str := List Char

/-- Coerce a Lean string literal to the `Str` model. -/
def lit (s : String) : Str := s.data

/-- `strStartsWith n h`: the Python test "`h` starts with `n`" (used to build
the substring test below). -/
def strStartsWith : Str → Str → Bool
  | [], _ => true
  | _ :: _, [] => false
  | a :: as, b :: bs => a == b && strStartsWith as bs

/-- The Python substring test `needle in haystack`. -/
def strIn (needle : Str) : Str → Bool
  | [] => needle.isEmpty
  | c :: rest => strStartsWith needle (c :: rest) || strIn needle rest

/-- Python values that flow through the engine: strings, booleans, integers,
lists, dicts (insertion-ordered association lists) and `None`.  (JSON floats
and arbitrary user objects are outside the model; no claim involves them.) -/
inductive PyVal where
  | str : Str → PyVal
  | bool : Bool → PyVal
  | int : Int → PyVal
  | list : List PyVal → PyVal
  | dict : List (Str × PyVal) → PyVal
  | none : PyVal

/-- Python truthiness (`if v:`). -/
def PyVal.truthy : PyVal → Bool
  | .str s => !s.isEmpty
  | .bool b => b
  | .int i => i != 0
  | .list l => !l.isEmpty
  | .dict l => !l.isEmpty
  | .none => false

/-- First-match lookup in an insertion-ordered dict. -/
def dictFind (kvs : List (Str × PyVal)) (k : Str) : Option PyVal :=
  (kvs.find? (fun kv => kv.1 == k)).map (·.2)

/-- Python `d.get(k)` on a dict: `None` when the key is absent. -/
def pyGet (kvs : List (Str × PyVal)) (k : Str) : PyVal :=
  (dictFind kvs k).getD .none

/-- Python `d.get(k, default)` on a dict. -/
def pyGetD (kvs : List (Str × PyVal)) (k : Str) (d : PyVal) : PyVal :=
  (dictFind kvs k).getD d

/-- Python `d[k] = v`: overwrite in place (keeping insertion position), or
append a fresh key. -/
def dictSet (kvs : List (Str × PyVal)) (k : Str) (v : PyVal) : List (Str × PyVal) :=
  if (kvs.find? (fun kv => kv.1 == k)).isSome then
    kvs.map (fun kv => if kv.1 == k then (kv.1, v) else kv)
  else
    kvs ++ [(k, v)]

mutual

/-- Model of Python `str(v)` as used by f-string interpolation.  For strings
it is the identity; for containers it renders the structure (quoting of the
members of containers is abstracted away — no claim depends on it). -/
def pyStr : PyVal → Str
  | .str s => s
  | .bool b => if b then lit ("True") else lit ("False")
  | .int i => (toString i).data
  | .none => lit ("None")
  | .list vs => lit ("[") ++ pyStrSeq vs ++ lit ("]")
  | .dict kvs => ['\x7b'] ++ pyStrEntries kvs ++ ['\x7d']

def pyStrSeq : List PyVal → Str
  | [] => []
  | [v] => pyStr v
  | v :: rest => pyStr v ++ lit (", ") ++ pyStrSeq rest

def pyStrEntries : List (Str × PyVal) → Str
  | [] => []
  | [(k, v)] => k ++ lit (": ") ++ pyStr v
  | (k, v) :: rest => k ++ lit (": ") ++ pyStr v ++ lit (", ") ++ pyStrEntries rest

end

mutual

/-- Model of the standard library's `json.dumps(v, ensure_ascii=False, indent=2)`:
a structural dump of the value.  Indentation whitespace and string escaping
are abstracted (the claims only use that the dump of a dict is a brace-
delimited rendering of the whole mapping, not the report text itself). -/
def jsonDumps : PyVal → Str
  | .str s => ['"'] ++ s ++ ['"']
  | .bool b => if b then lit ("true") else lit ("false")
  | .int i => (toString i).data
  | .none => lit ("null")
  | .list vs => lit ("[") ++ jsonDumpsSeq vs ++ lit ("]")
  | .dict kvs => ['\x7b'] ++ jsonDumpsEntries kvs ++ ['\x7d']

def jsonDumpsSeq : List PyVal → Str
  | [] => []
  | [v] => jsonDumps v
  | v :: rest => jsonDumps v ++ lit (", ") ++ jsonDumpsSeq rest

def jsonDumpsEntries : List (Str × PyVal) → Str
  | [] => []
  | [(k, v)] => ['"'] ++ k ++ ['"'] ++ lit (": ") ++ jsonDumps v
  | (k, v) :: rest => ['"'] ++ k ++ ['"'] ++ lit (": ") ++ jsonDumps v ++ lit (", ") ++ jsonDumpsEntries rest

end

/-- Python equality test `v == "name"` between an arbitrary value and a
string literal: true only for equal strings. -/
def pyEqStr (v : PyVal) (s : Str) : Bool :=
  match v with
  | .str t => t == s
  | _ => false

/-- A registered Capability Unit (skill), as seen by the engine: its
structural input check and its task dispatcher.  `execute` returning
`.error e` models the skill raising an exception with `str(e) = e`. -/
structure Skill where
  validate_input : Str → PyVal → Bool
  execute : Str → PyVal → Except Str PyVal

/-- The Skill Registry: `SkillManager.skills`, an insertion-ordered map from
skill name to instance. -/
abbrev SkillMgr := List (Str × Skill)

namespace SkillManager

/-- `SkillManager.get_skill` / `self.skills.get(name)`.  Registry keys are
directory names (strings), so a non-string lookup never finds a skill. -/
def get_skill (mgr : SkillMgr) : PyVal → Option Skill
  | .str s => (mgr.find? (fun kv => kv.1 == s)).map (·.2)
  | _ => Option.none

/-- The mapping returned by `SkillManager.execute_skill` when the skill's
`execute` returned `r` normally. -/
def success_wrapper (skill_name : PyVal) (task : Str) (r : PyVal) : List (Str × PyVal) :=
  [(lit ("success"), .bool true), (lit ("skill"), skill_name),
   (lit ("task"), .str task), (lit ("result"), r)]

/-- The mapping returned by `SkillManager.execute_skill` when the skill's
`execute` raised with text `e`. -/
def error_wrapper (skill_name : PyVal) (task : Str) (e : Str) : List (Str × PyVal) :=
  [(lit ("success"), .bool false), (lit ("skill"), skill_name),
   (lit ("task"), .str task), (lit ("error"), .str e)]

/-- `SkillManager.execute_skill` (src/skills/skill_manager.py:124-168).
`.error msg` is a raised `ValueError`; a successful return is always one of
the two wrapper dicts.  Note: validation receives `context or \x7b\x7d`,
while the skill's `execute` receives the context unchanged, as in the
source. -/
def execute_skill (mgr : SkillMgr) (skill_name : PyVal) (task : Str)
    (context : PyVal) : Except Str PyVal :=
  match get_skill mgr skill_name with
  | Option.none => .error (lit ("Skill not found: ") ++ pyStr skill_name)
  | some skill =>
    if !(skill.validate_input task (if context.truthy then context else .dict [])) then
      .error (lit ("Invalid input for skill \x27") ++ pyStr skill_name ++
              lit ("\x27 task \x27") ++ task ++ lit ("\x27"))
    else
      match skill.execute task context with
      | .ok r => .ok (.dict (success_wrapper skill_name task r))
      | .error e => .ok (.dict (error_wrapper skill_name task e))

end SkillManager

namespace SupervisorV2

/-- The fixed quick-route keyword table of `SupervisorAgentV2.quick_route`
(src/agents/supervisor_v2.py:46-63), in declared order. -/
def keywords_map : List (Str × List Str) :=
  [(lit ("data_analytics"),
    [lit ("통계"), lit ("분석"), lit ("추세"), lit ("위험도"), lit ("비교"), lit ("계산"),
     lit ("증감"), lit ("변화"), lit ("평가"), lit ("많은"), lit ("적은"), lit ("높은"), lit ("낮은")]),
   (lit ("report_generation"),
    [lit ("보고서"), lit ("조치"), lit ("방안"), lit ("대응"), lit ("작성"), lit ("생성"),
     lit ("가이드"), lit ("계획"), lit ("요약"), lit ("정리")]),
   (lit ("knowledge_management"),
    [lit ("검색"), lit ("찾아"), lit ("알려"), lit ("법규"), lit ("규정"), lit ("어떻게"),
     lit ("무엇"), lit ("왜"), lit ("설명"), lit ("안내"), lit ("교육")]),
   (lit ("vision_analysis"),
    [lit ("이미지"), lit ("사진"), lit ("영상"), lit ("분석"), lit ("PPE"), lit ("착용"),
     lit ("감지"), lit ("확인"), lit ("비교")])]

/-- `SupervisorAgentV2.quick_route`: first skill in table order one of whose
keywords occurs in the input; `none` means LLM routing is needed. -/
def quick_route (user_input : Str) : Option Str :=
  keywords_map.findSome? (fun sk =>
    if sk.2.any (fun kw => strIn kw user_input) then some sk.1 else Option.none)

/-- The per-skill keyword → task tables of `SupervisorAgentV2._determine_task`
(src/agents/supervisor_v2.py:180-220), in declared order. -/
def task_mapping : List (Str × List (Str × Str)) :=
  [(lit ("data_analytics"),
    [(lit ("통계"), lit ("calculate_statistics")),
     (lit ("추세"), lit ("analyze_trend")),
     (lit ("위험도"), lit ("assess_risk")),
     (lit ("비교"), lit ("compare_periods")),
     (lit ("많은"), lit ("find_top_cameras"))]),
   (lit ("report_generation"),
    [(lit ("조치"), lit ("generate_action_plan")),
     (lit ("대응"), lit ("generate_action_plan")),
     (lit ("방안"), lit ("generate_action_plan")),
     (lit ("어떻게"), lit ("generate_action_plan")),
     (lit ("일일"), lit ("generate_daily_report")),
     (lit ("주간"), lit ("generate_weekly_report")),
     (lit ("사고"), lit ("generate_incident_report")),
     (lit ("요약"), lit ("generate_summary")),
     (lit ("보고서"), lit ("generate_event_report"))]),
   (lit ("knowledge_management"),
    [(lit ("검색"), lit ("search_knowledge")),
     (lit ("법규"), lit ("search_regulations")),
     (lit ("규정"), lit ("search_regulations")),
     (lit ("찾아"), lit ("search_knowledge")),
     (lit ("알려"), lit ("answer_question"))]),
   (lit ("vision_analysis"),
    [(lit ("분석"), lit ("analyze_image")),
     (lit ("PPE"), lit ("detect_ppe")),
     (lit ("착용"), lit ("detect_ppe")),
     (lit ("비교"), lit ("compare_images"))])]

/-- The per-skill default tasks of `SupervisorAgentV2._determine_task`
(src/agents/supervisor_v2.py:229-234). -/
def default_tasks : List (Str × Str) :=
  [(lit ("data_analytics"), lit ("calculate_statistics")),
   (lit ("report_generation"), lit ("generate_action_plan")),
   (lit ("knowledge_management"), lit ("search_knowledge")),
   (lit ("vision_analysis"), lit ("analyze_image"))]

/-- `SupervisorAgentV2._determine_task`: first keyword of the skill's table
(in declared order) occurring in the input wins; otherwise the skill's
default task; `default_tasks.get(skill_name, 'execute')` for unknown names.
A non-string skill name finds no table entry. -/
def determine_task (user_input : Str) (skill_name : PyVal) : Str :=
  let byKeyword : Option Str :=
    match skill_name with
    | .str s =>
      match task_mapping.find? (fun kv => kv.1 == s) with
      | some entry => ((entry.2.find? (fun kt => strIn kt.1 user_input)).map (·.2))
      | Option.none => Option.none
    | _ => Option.none
  match byKeyword with
  | some t => t
  | Option.none =>
    match skill_name with
    | .str s => ((default_tasks.find? (fun kv => kv.1 == s)).map (·.2)).getD (lit ("execute"))
    | _ => lit ("execute")

/-- The event-type keyword table of `SupervisorAgentV2._extract_event_type`
(src/agents/supervisor_v2.py:351-358). -/
def event_keywords : List (Str × List Str) :=
  [(lit ("NO_HELMET"), [lit ("헬멧"), lit ("안전모"), lit ("모자")]),
   (lit ("NO_SAFETY_VEST"), [lit ("조끼"), lit ("안전조끼"), lit ("형광조끼")]),
   (lit ("FALL_DETECTED"), [lit ("낙상"), lit ("넘어짐"), lit ("떨어짐"), lit ("추락")]),
   (lit ("FIRE_HAZARD"), [lit ("화재"), lit ("불"), lit ("연기")]),
   (lit ("RESTRICTED_AREA"), [lit ("제한구역"), lit ("출입금지"), lit ("통제구역")]),
   (lit ("EQUIPMENT_MISUSE"), [lit ("장비"), lit ("도구"), lit ("기계")])]

/-- `SupervisorAgentV2._extract_event_type`. -/
def extract_event_type (user_input : Str) : Str :=
  (event_keywords.findSome? (fun ek =>
    if ek.2.any (fun kw => strIn kw user_input) then some ek.1 else Option.none)).getD
    (lit ("UNKNOWN"))

/-- `d.get(k, default)` on an arbitrary value: raises `AttributeError` unless
the value is a dict (models Python attribute lookup of `.get`). -/
def pyGetAttr (v : PyVal) (k : Str) (d : PyVal) : Except Str PyVal :=
  match v with
  | .dict kvs => .ok (pyGetD kvs k d)
  | _ => .error (lit ("AttributeError: get"))

/-- `SupervisorAgentV2._format_dict`: one line per entry, joined by
newlines; `.items()` requires a dict. -/
def format_dict_entries : List (Str × PyVal) → Str
  | [] => []
  | [(k, v)] => lit ("  - ") ++ k ++ lit (": ") ++ pyStr v ++ lit ("건")
  | (k, v) :: rest =>
      lit ("  - ") ++ k ++ lit (": ") ++ pyStr v ++ lit ("건") ++ lit ("\n") ++
      format_dict_entries rest

def format_dict : PyVal → Except Str Str
  | .dict kvs => .ok (format_dict_entries kvs)
  | _ => .error (lit ("AttributeError: items"))

/-- The `statistics` branch of `SupervisorAgentV2._format_result`
(src/agents/supervisor_v2.py:401-418). -/
def format_statistics (stats : PyVal) : Except Str Str := do
  let period1 ← pyGetAttr stats (lit ("period")) (.dict [])
  let startDate ← pyGetAttr period1 (lit ("start_date")) (.str (lit ("N/A")))
  let period2 ← pyGetAttr stats (lit ("period")) (.dict [])
  let endDate ← pyGetAttr period2 (lit ("end_date")) (.str (lit ("N/A")))
  let total ← pyGetAttr stats (lit ("total_events")) (.int 0)
  let resolved ← pyGetAttr stats (lit ("resolved")) (.int 0)
  let unresolved ← pyGetAttr stats (lit ("unresolved")) (.int 0)
  let rate ← pyGetAttr stats (lit ("resolution_rate")) (.int 0)
  let byType ← pyGetAttr stats (lit ("by_event_type")) (.dict [])
  let byTypeStr ← format_dict byType
  let bySev ← pyGetAttr stats (lit ("by_severity")) (.dict [])
  let bySevStr ← format_dict bySev
  .ok (lit ("\n📊 통계 분석 결과\n\n기간: ") ++ pyStr startDate ++ lit (" ~ ") ++
       pyStr endDate ++ lit ("\n\n총 이벤트: ") ++ pyStr total ++
       lit ("건\n- 해결: ") ++ pyStr resolved ++ lit ("건\n- 미해결: ") ++
       pyStr unresolved ++ lit ("건\n- 해결률: ") ++ pyStr rate ++
       lit ("%\n\n이벤트 타입별:\n") ++ byTypeStr ++
       lit ("\n\n심각도별:\n") ++ bySevStr ++ lit ("\n"))

/-- `SupervisorAgentV2._format_result` (src/agents/supervisor_v2.py:366-421),
applied to a dict's entries: tries `report`, `action_plan`, `summary`,
`answer`, a non-empty `results` list, `guide`, `statistics`, in source
order, then falls back to `json.dumps` of the whole mapping.  The
`page_content` case for non-dict search results is modelled by `str(...)`
(no LangChain `Document` objects exist in the model). -/
def format_result (result : List (Str × PyVal)) : Except Str PyVal :=
  match dictFind result (lit ("report")) with
  | some v => .ok v
  | Option.none =>
  match dictFind result (lit ("action_plan")) with
  | some v => .ok v
  | Option.none =>
  match dictFind result (lit ("summary")) with
  | some v => .ok v
  | Option.none =>
  match dictFind result (lit ("answer")) with
  | some v => .ok v
  | Option.none =>
  let resultsHit : Option PyVal :=
    match dictFind result (lit ("results")) with
    | some (.list (first :: _)) =>
      match first with
      | .dict kvs => some (pyGetD kvs (lit ("content")) (.str []))
      | v => some (.str (pyStr v))
    | _ => Option.none
  match resultsHit with
  | some v => .ok v
  | Option.none =>
  match dictFind result (lit ("guide")) with
  | some v => .ok v
  | Option.none =>
  match dictFind result (lit ("statistics")) with
  | some stats => (format_statistics stats).map (fun s => .str s)
  | Option.none => .ok (.str (jsonDumps (.dict result)))

/-- The `report_generation` context augmentation of
`SupervisorAgentV2._execute_skill` (src/agents/supervisor_v2.py:303-322). -/
def report_context (task : Str) (original_input : Str)
    (ctx : List (Str × PyVal)) : List (Str × PyVal) :=
  if task == lit ("generate_action_plan") then
    let eventType := extract_event_type original_input
    let ctx := dictSet ctx (lit ("event_data")) (.dict
      [(lit ("event_type"), .str eventType),
       (lit ("description"), .str original_input),
       (lit ("severity"), .str (lit ("MEDIUM"))),
       (lit ("timestamp"), .str (lit ("N/A")))])
    dictSet ctx (lit ("knowledge_context")) (.str (lit ("사용자 질문: ") ++ original_input))
  else if task == lit ("generate_event_report") then
    dictSet ctx (lit ("events")) (pyGetD ctx (lit ("events")) (.list []))
  else if task == lit ("generate_statistics_report") then
    dictSet ctx (lit ("statistics")) (pyGetD ctx (lit ("statistics")) (.dict []))
  else ctx

/-- The `try` body of `SupervisorAgentV2._execute_skill`
(src/agents/supervisor_v2.py:292-340): resolve the task, build the context,
run the skill through the registry, format the result. -/
def execute_skill_body (mgr : SkillMgr) (skill_name task_description : PyVal)
    (original_input : Str) (image_data : PyVal) : Except Str PyVal :=
  let task := determine_task original_input skill_name
  let ctx : List (Str × PyVal) :=
    [(lit ("query"), .str original_input), (lit ("task_description"), task_description)]
  let ctx2 := if pyEqStr skill_name (lit ("report_generation"))
              then report_context task original_input ctx else ctx
  let ctxE : Except Str (List (Str × PyVal)) :=
    if image_data.truthy then
      (pyGetAttr image_data (lit ("images")) (.list [])).map
        (fun imgs => dictSet ctx2 (lit ("images")) imgs)
    else .ok ctx2
  match ctxE with
  | .error e => .error e
  | .ok ctx3 =>
    match SkillManager.execute_skill mgr skill_name task (.dict ctx3) with
    | .error e => .error e
    | .ok result =>
      match result with
      | .dict kvs => format_result kvs
      | r => .ok (.str (pyStr r))

/-- `SupervisorAgentV2._execute_skill`: the body above with its
`except Exception` handler, which degrades any raise to an error string. -/
def execute_skill (mgr : SkillMgr) (skill_name task_description : PyVal)
    (original_input : Str) (image_data : PyVal) : PyVal :=
  match execute_skill_body mgr skill_name task_description original_input image_data with
  | .ok v => v
  | .error e => .str (pyStr skill_name ++ lit (" Skill 실행 중 오류: ") ++ e)

/-- One accumulated entry of `results` in
`SupervisorAgentV2._execute_multi_step`:
`\x7b"step": i, "skill": ..., "task": ..., "result": ...\x7d`. -/
structure StepRec where
  step : Nat
  skill : PyVal
  task : PyVal
  result : PyVal

instance : Inhabited StepRec := ⟨⟨0, PyVal.none, PyVal.none, PyVal.none⟩⟩

/-- The `task_description` actually handed to a step's invocation in
`SupervisorAgentV2._execute_multi_step`: the step's declared task (the
original input if the step declares none), augmented with the previous
step's result when that result is truthy (lines 438-445 of the source). -/
def step_task (original_input : Str) (kvs : List (Str × PyVal)) (ctx : PyVal) : PyVal :=
  let taskDesc0 := pyGetD kvs (lit ("task")) (.str original_input)
  if ctx.truthy
    then .str (pyStr taskDesc0 ++ lit ("\n\n이전 단계 결과:\n") ++ pyStr ctx)
    else taskDesc0

/-- The step loop of `SupervisorAgentV2._execute_multi_step`
(src/agents/supervisor_v2.py:436-457).  `ctx` is the `context` variable
(previous step's result, initially `""`).  A step that is not a dict makes
`step.get` raise; the `result[:200]` in the progress print raises on
non-sliceable results (both are modelled as `.error`, propagating to
`execute`'s handler — the loop's result list is discarded there, as in the
source). -/
def run_steps (mgr : SkillMgr) (original_input : Str) :
    List PyVal → Nat → PyVal → Except Str (List StepRec)
  | [], _, _ => .ok []
  | stepV :: rest, i, ctx =>
    match stepV with
    | .dict kvs =>
      let skillName := pyGet kvs (lit ("skill"))
      let taskDesc := step_task original_input kvs ctx
      let result := execute_skill mgr skillName taskDesc original_input PyVal.none
      match result with
      | .str _ | .list _ =>
        (match run_steps mgr original_input rest (i + 1) result with
         | .ok recs => .ok (⟨i, skillName, taskDesc, result⟩ :: recs)
         | .error e => .error e)
      | _ => .error (lit ("TypeError: unhashable type"))
    | _ => .error (lit ("AttributeError: get"))

/-- `routing_plan.get("steps", [])` is iterated by the step loop: a list
iterates its elements; an empty string or dict iterates nothing; a
non-empty string or dict yields strings, whose `.get` raises on the first
step; other values are not iterable. -/
def iter_steps : PyVal → Except Str (List PyVal)
  | .list l => .ok l
  | .str [] => .ok []
  | .dict [] => .ok []
  | .str (_ :: _) => .error (lit ("AttributeError: get"))
  | .dict (_ :: _) => .error (lit ("AttributeError: get"))
  | _ => .error (lit ("TypeError: not iterable"))

/-- `SupervisorAgentV2._execute_multi_step`
(src/agents/supervisor_v2.py:427-460): run every step, then return the last
result, or the fixed no-result message for an empty plan. -/
def execute_multi_step (mgr : SkillMgr) (plan : List (Str × PyVal))
    (original_input : Str) : Except Str PyVal :=
  match iter_steps (pyGetD plan (lit ("steps")) (.list [])) with
  | .error e => .error e
  | .ok steps =>
    match run_steps mgr original_input steps 1 (.str []) with
    | .error e => .error e
    | .ok recs =>
      match recs.getLast? with
      | some r => .ok r.result
      | Option.none => .ok (.str (lit ("결과가 없습니다.")))

/-- Python `s.replace(old, new)` for a non-empty pattern `old`: replace all
non-overlapping occurrences, left to right.  Structural recursion on a fuel
bounded by the string length (a replacement consumes at least one character,
so the fuel never runs out when it starts at `s.length`). -/
def strReplaceFuel (new old : Str) : Nat → Str → Str
  | _, [] => []
  | 0, c :: rest => c :: rest
  | Nat.succ fuel, c :: rest =>
    if old ≠ [] ∧ strStartsWith old (c :: rest) = true then
      new ++ strReplaceFuel new old fuel ((c :: rest).drop old.length)
    else
      c :: strReplaceFuel new old fuel rest

def strReplace (s old new : Str) : Str :=
  strReplaceFuel new old s.length s

/-- Python `s.strip()`: drop leading and trailing whitespace. -/
def pyStrip (s : Str) : Str :=
  ((s.dropWhile Char.isWhitespace).reverse.dropWhile Char.isWhitespace).reverse

/-- `re.search(r'\x7b[\s\S]*\x7d', s)`: the leftmost-greedy match runs from
the first `\x7b` to the last `\x7d`, and exists exactly when the last
`\x7d` lies strictly after the first `\x7b`. -/
def jsonMatch (s : Str) : Option Str :=
  match s.findIdx? (fun c => c == '\x7b') with
  | Option.none => Option.none
  | some p =>
    match s.reverse.findIdx? (fun c => c == '\x7d') with
    | Option.none => Option.none
    | some rq =>
      let q := s.length - 1 - rq
      if p < q then some ((s.drop p).take (q - p + 1)) else Option.none

/-- The routing prompt of `SupervisorAgentV2.llm_route`
(src/agents/supervisor_v2.py:84-137). -/
def routing_prompt (user_input : Str) : Str :=
  lit ("당신은 안전 모니터링 시스템의 작업 분배 관리자입니다.\n\n사용자 요청: ") ++ user_input ++
  lit ("\n\n사용 가능한 Skills:\n1. data_analytics - 데이터 분석 전담\n   - 통계 계산\n   - 추세 분석\n   - 위험도 평가\n   - 카메라별 분석\n   예: \"통계 분석해줘\", \"가장 위험한 카메라는?\", \"증감률 계산\"\n\n2. report_generation - 보고서 및 대응 방안 작성\n   - 일일/주간 보고서 생성\n   - 조치 방안 제공\n   - 사고 보고서 작성\n   예: \"보고서 작성해줘\", \"대응 방안 알려줘\", \"조치 사항은?\"\n\n3. knowledge_management - 지식 검색 및 질문 답변\n   - 안전 규정 검색\n   - 조치 가이드 조회\n   - 질문 답변 (RAG)\n   예: \"안전모 착용 규정은?\", \"낙상 사고 대응 방법은?\", \"법규 알려줘\"\n\n4. vision_analysis - 이미지 분석 전담\n   - 안전 위반 사항 감지\n   - PPE 착용 확인\n   - 작업장 안전 평가\n   예: \"이 이미지 분석해줘\", \"안전모 착용 확인\"\n   주의: 이미지가 제공된 경우에만 사용\n\n사용자 요청을 분석하여 어떤 Skill을 사용할지 결정하세요.\n\n복잡한 요청의 경우 여러 Skills를 순차적으로 사용할 수 있습니다:\n- 예: \"가장 위험한 구역의 대응 방안\" → data_analytics (위험 구역 찾기) → report_generation (대응 방안)\n- 예: \"오늘 이벤트 보고서\" → data_analytics (통계) → report_generation (보고서 생성)\n\n응답 형식 (JSON만):\n\x7b\n  \"skill\": \"data_analytics\" | \"report_generation\" | \"knowledge_management\" | \"vision_analysis\",\n  \"task\": \"구체적인 작업 설명\",\n  \"reason\": \"선택 이유\",\n  \"multi_step\": false\n\x7d\n\n또는 멀티스텝인 경우:\n\x7b\n  \"multi_step\": true,\n  \"steps\": [\n    \x7b\"skill\": \"data_analytics\", \"task\": \"구체적인 작업\"\x7d,\n    \x7b\"skill\": \"report_generation\", \"task\": \"구체적인 작업\"\x7d\n  ],\n  \"reason\": \"멀티스텝 이유\"\n\x7d")

/-- The deterministic fallback routing plan of `SupervisorAgentV2.llm_route`:
a single-step plan naming the designated default skill
`knowledge_management`, with a reason recording the failure. -/
def km_fallback (user_input reason : Str) : List (Str × PyVal) :=
  [(lit ("skill"), .str (lit ("knowledge_management"))),
   (lit ("task"), .str user_input),
   (lit ("multi_step"), .bool false),
   (lit ("reason"), .str reason)]

/-- `SupervisorAgentV2.llm_route` (src/agents/supervisor_v2.py:73-165).
`llm` is the generation collaborator (`.error e` = the call raised, e.g. a
timeout); `jsonLoads` is the standard library's `json.loads` on the
brace-delimited extract (`.error e` = `JSONDecodeError`; a success on a
`\x7b...\x7d` document is always an object, hence a dict's entries).  The
`except` around the whole body turns either failure into the fallback with
reason `"오류 발생: ..."`; a missing JSON object yields the fallback with
reason `"파싱 실패, 기본값 사용"`. -/
def llm_route (llm : Str → Except Str Str)
    (jsonLoads : Str → Except Str (List (Str × PyVal)))
    (user_input : Str) : List (Str × PyVal) :=
  match llm (routing_prompt user_input) with
  | .error e => km_fallback user_input (lit ("오류 발생: ") ++ e)
  | .ok content =>
    let response_text :=
      pyStrip (strReplace (strReplace content (lit ("```json")) []) (lit ("```")) [])
    match jsonMatch response_text with
    | Option.none => km_fallback user_input (lit ("파싱 실패, 기본값 사용"))
    | some jstr =>
      match jsonLoads jstr with
      | .ok kvs => kvs
      | .error e => km_fallback user_input (lit ("오류 발생: ") ++ e)

/-- `SupervisorAgentV2.execute` (src/agents/supervisor_v2.py:238-278):
quick route, else LLM route (multi-step or single skill), with the
top-level `except Exception` degrading any raise to an apology string. -/
def execute (mgr : SkillMgr) (llm : Str → Except Str Str)
    (jsonLoads : Str → Except Str (List (Str × PyVal)))
    (user_input : Str) (image_data : PyVal) : PyVal :=
  let body : Except Str PyVal :=
    match quick_route user_input with
    | some skillName =>
      .ok (execute_skill mgr (.str skillName) (.str user_input) user_input image_data)
    | Option.none =>
      let plan := llm_route llm jsonLoads user_input
      if (pyGet plan (lit ("multi_step"))).truthy then
        execute_multi_step mgr plan user_input
      else
        .ok (execute_skill mgr (pyGet plan (lit ("skill")))
              (pyGetD plan (lit ("task")) (.str user_input)) user_input image_data)
  match body with
  | .ok v => v
  | .error e => .str (lit ("요청 처리 중 오류가 발생했습니다: ") ++ e)

end SupervisorV2

namespace SupervisorV1

/-- One accumulated entry of `results` in
`SupervisorAgent._execute_multi_step` (src/agents/supervisor_agent.py:253-258):
`\x7b"step": i, "agent": ..., "task": ..., "result": ...\x7d`; agent results
are strings. -/
structure AgentRec where
  step : Nat
  agent : Str
  task : Str
  result : Str

/-- The header of the synthesis prompt of `SupervisorAgent._synthesize_results`
(src/agents/supervisor_agent.py:278-283), including the indentation
whitespace of the source's triple-quoted literal. -/
def synthesis_header (original_input : Str) : Str :=
  lit ("다음은 사용자 요청을 처리한 여러 단계의 결과입니다.\n\n                        사용자 원래 요청: ") ++
  original_input ++
  lit ("\n                        \n                        단계별 결과:\n                        ")

/-- One per-step block appended to the synthesis prompt
(src/agents/supervisor_agent.py:284-285). -/
def record_block (r : AgentRec) : Str :=
  lit ("\n[") ++ (toString r.step).data ++ lit ("단계 - ") ++ r.agent ++
  lit ("]\n작업: ") ++ r.task ++ lit ("\n결과: ") ++ r.result ++ lit ("\n")

def record_blocks : List AgentRec → Str
  | [] => []
  | r :: rest => record_block r ++ record_blocks rest

/-- The footer appended to the synthesis prompt
(src/agents/supervisor_agent.py:287-293). -/
def synthesis_footer : Str :=
  lit ("\n\n                            위 모든 단계의 결과를 종합하여 사용자의 원래 요청에 대한 최종 답변을 작성하세요.\n                            - 모든 관련 정보를 포함하세요\n                            - 명확하고 구조화된 형태로 제시하세요\n                            - 한국어로 작성하세요\n                            ")

/-- The full synthesis prompt: header, one block per step result, footer. -/
def synthesis_prompt (original_input : Str) (results : List AgentRec) : Str :=
  synthesis_header original_input ++ record_blocks results ++ synthesis_footer

/-- `SupervisorAgent._synthesize_results`
(src/agents/supervisor_agent.py:267-300): no result → fixed message; one
result → it; several → one generation call on the synthesis prompt, falling
back to the last result if that call raises. -/
def synthesize_results (llm : Str → Except Str Str) (results : List AgentRec)
    (original_input : Str) : Str :=
  match results with
  | [] => lit ("결과가 없습니다.")
  | [r] => r.result
  | r :: rest =>
    match llm (synthesis_prompt original_input (r :: rest)) with
    | .ok content => content
    | .error _ => ((r :: rest).getLastD r).result

end SupervisorV1

/-! ### Concrete fixtures used by witnesses and counterexamples -/

/-- A trivially valid skill whose `execute` returns the string `done`. -/
def w3_skill : Skill :=
  { validate_input := fun _ _ => true, execute := fun _ _ => Except.ok (.str (lit ("done"))) }

/-- A trivially valid skill whose `execute` raises `boom`. -/
def w10_skill : Skill :=
  { validate_input := fun _ _ => true, execute := fun _ _ => Except.error (lit ("boom")) }

/-- A generation collaborator that always fails. -/
def w4_llm1 : Str → Except Str Str := fun _ => Except.error (lit ("down"))

/-- A generation collaborator that always answers with fixed text. -/
def w4_llm2 : Str → Except Str Str := fun _ => Except.ok (lit ("plan text"))

/-- A JSON decoder that always fails. -/
def w4_jl : Str → Except Str (List (Str × PyVal)) := fun _ => Except.error (lit ("nope"))

/-- A generation collaborator whose routing call raises (e.g. a timeout). -/
def c6_llm : Str → Except Str Str := fun _ => Except.error (lit ("Deadline Exceeded"))

/-- A JSON decoder that is never consulted. -/
def c6_jl : Str → Except Str (List (Str × PyVal)) := fun _ => Except.error (lit ("unused"))

/-- A collaborator response declaring a multi-step plan with an empty steps
list — valid JSON that `json.loads` accepts. -/
def c7_resp : Str := lit ("\x7b\"multi_step\": true, \"steps\": []\x7d")

def c7_llm : Str → Except Str Str := fun _ => Except.ok c7_resp

/-- `json.loads` evaluated on the one document this run extracts: the
object with `multi_step: true` and empty `steps` (any other input would be
a decode error). -/
def c7_jl : Str → Except Str (List (Str × PyVal)) := fun s =>
  if s == c7_resp then
    Except.ok [(lit ("multi_step"), PyVal.bool true), (lit ("steps"), PyVal.list [])]
  else Except.error (lit ("Expecting value"))

def c8_input : Str := lit ("hello")

/-- A two-step plan naming the unregistered skills `a` and `b`. -/
def c8_steps : List PyVal :=
  [PyVal.dict [(lit ("skill"), PyVal.str (lit ("a")))],
   PyVal.dict [(lit ("skill"), PyVal.str (lit ("b")))]]

def c8_resp : Str :=
  lit ("\x7b\"multi_step\": true, \"steps\": [\x7b\"skill\": \"a\"\x7d, \x7b\"skill\": \"b\"\x7d]\x7d")

/-- A generation collaborator that ALWAYS succeeds, answering every prompt
(routing or otherwise) with the same text `c8_resp`. -/
def c8_llm : Str → Except Str Str := fun _ => Except.ok c8_resp

/-- `json.loads` evaluated on the one document this run extracts. -/
def c8_jl : Str → Except Str (List (Str × PyVal)) := fun s =>
  if s == c8_resp then
    Except.ok [(lit ("multi_step"), PyVal.bool true), (lit ("steps"), PyVal.list c8_steps)]
  else Except.error (lit ("Expecting value"))

/-- A generation collaborator whose synthesis call raises. -/
def c8w_llmfail : Str → Except Str Str := fun _ => Except.error (lit ("synthesis down"))

def c8w_r1 : SupervisorV1.AgentRec := ⟨1, lit ("query"), lit ("조회"), lit ("이벤트 10건")⟩

def c8w_r2 : SupervisorV1.AgentRec := ⟨2, lit ("report"), lit ("보고"), lit ("보고서 본문")⟩

/-- A registered `report_generation` skill whose `execute` returns
`\x7b"report": "안전 보고서"\x7d`, exactly the shape `_format_result`'s
first branch looks for. -/
def c9_skill : Skill :=
  { validate_input := fun _ _ => true,
    execute := fun _ _ => Except.ok (.dict [(lit ("report"), PyVal.str (lit ("안전 보고서")))]) }

def c9_mgr : SkillMgr := [(lit ("report_generation"), c9_skill)]

/-- A request that quick-routes to `report_generation` and resolves to the
`generate_event_report` task. -/
def c9_input : Str := lit ("보고서 작성해줘")

def c9_llm : Str → Except Str Str := fun _ => Except.error (lit ("unused"))

def c9_jl : Str → Except Str (List (Str × PyVal)) := fun _ => Except.error (lit ("unused"))

/-! ### Helper lemmas shared by the claim theorems -/

theorem strStartsWith_iff (n h : Str) :
    strStartsWith n h = true ↔ ∃ t, h = n ++ t := by
  induction n generalizing h with
  | nil => simp [strStartsWith]
  | cons a as ih =>
    cases h with
    | nil => simp [strStartsWith]
    | cons b bs =>
      simp only [strStartsWith, Bool.and_eq_true, beq_iff_eq, ih, List.cons_append,
        List.cons.injEq]
      constructor
      · rintro ⟨rfl, t, rfl⟩; exact ⟨t, rfl, rfl⟩
      · rintro ⟨t, rfl, rfl⟩; exact ⟨rfl, t, rfl⟩

theorem strIn_iff (n h : Str) :
    strIn n h = true ↔ ∃ p t, h = p ++ n ++ t := by
  induction h with
  | nil =>
    simp only [strIn, List.isEmpty_iff]
    constructor
    · rintro rfl; exact ⟨[], [], by simp⟩
    · rintro ⟨p, t, hp⟩
      exact (List.append_eq_nil.mp (List.append_eq_nil.mp hp.symm).1).2
  | cons c rest ih =>
    simp only [strIn, Bool.or_eq_true, strStartsWith_iff, ih]
    constructor
    · rintro (⟨t, ht⟩ | ⟨p, t, ht⟩)
      · exact ⟨[], t, by simp [ht]⟩
      · exact ⟨c :: p, t, by simp [ht]⟩
    · rintro ⟨p, t, ht⟩
      cases p with
      | nil => exact Or.inl ⟨t, by simpa using ht⟩
      | cons x xs =>
        rw [List.cons_append, List.cons_append] at ht
        injection ht with h1 h2
        exact Or.inr ⟨xs, t, h2⟩

/-- The empty string is a substring of everything (used for the vacuous case
of context threading). -/
theorem strIn_nil (h : Str) : strIn [] h = true := by
  rw [strIn_iff]; exact ⟨[], h, by simp⟩

/-- `_format_result` applied to the success wrapper falls through every
extraction key (the wrapper has none of them) to the `json.dumps` fallback. -/
theorem format_result_success (n : PyVal) (t : Str) (r : PyVal) :
    SupervisorV2.format_result (SkillManager.success_wrapper n t r) =
      .ok (.str (jsonDumps (.dict (SkillManager.success_wrapper n t r)))) := rfl

/-- `_format_result` applied to the error wrapper likewise falls through to
the `json.dumps` fallback. -/
theorem format_result_error (n : PyVal) (t : Str) (e : Str) :
    SupervisorV2.format_result (SkillManager.error_wrapper n t e) =
      .ok (.str (jsonDumps (.dict (SkillManager.error_wrapper n t e)))) := rfl

/-- A non-raising `SkillManager.execute_skill` always returns one of the two
wrapper dicts. -/
theorem execute_skill_ok_shape (mgr : SkillMgr) (n : PyVal) (t : Str) (c : PyVal) (v : PyVal)
    (h : SkillManager.execute_skill mgr n t c = .ok v) :
    (∃ r, v = .dict (SkillManager.success_wrapper n t r)) ∨
    (∃ e, v = .dict (SkillManager.error_wrapper n t e)) := by
  rcases hg : SkillManager.get_skill mgr n with _ | sk
  · simp only [SkillManager.execute_skill, hg] at h
    cases h
  · simp only [SkillManager.execute_skill, hg] at h
    rcases hv : sk.validate_input t (if c.truthy then c else .dict []) with _ | _
    · simp [hv] at h
    · simp only [hv, Bool.not_true, Bool.false_eq_true, if_false] at h
      rcases he : sk.execute t c with e | r
      · rw [he] at h
        exact Or.inr ⟨e, (Except.ok.inj h).symm⟩
      · rw [he] at h
        exact Or.inl ⟨r, (Except.ok.inj h).symm⟩

theorem execute_skill_body_ok_isStr (mgr : SkillMgr) (n td : PyVal) (orig : Str)
    (img v : PyVal) (h : SupervisorV2.execute_skill_body mgr n td orig img = .ok v) :
    ∃ s, v = PyVal.str s := by
  simp only [SupervisorV2.execute_skill_body] at h
  split at h
  · cases h
  · rename_i ctx3 _
    split at h
    · cases h
    · rename_i result hexec
      rcases execute_skill_ok_shape _ _ _ _ _ hexec with ⟨r, rfl⟩ | ⟨e, rfl⟩
      · have h' : SupervisorV2.format_result
            (SkillManager.success_wrapper n (SupervisorV2.determine_task orig n) r) = .ok v := h
        rw [format_result_success] at h'
        exact ⟨_, (Except.ok.inj h').symm⟩
      · have h' : SupervisorV2.format_result
            (SkillManager.error_wrapper n (SupervisorV2.determine_task orig n) e) = .ok v := h
        rw [format_result_error] at h'
        exact ⟨_, (Except.ok.inj h').symm⟩

/-- `SupervisorAgentV2._execute_skill` always returns a string: either the
formatted (json-dumped) wrapper or the error message of its handler. -/
theorem execute_skill_isStr (mgr : SkillMgr) (n td : PyVal) (orig : Str) (img : PyVal) :
    ∃ s, SupervisorV2.execute_skill mgr n td orig img = PyVal.str s := by
  unfold SupervisorV2.execute_skill
  rcases hb : SupervisorV2.execute_skill_body mgr n td orig img with e | v
  · exact ⟨_, rfl⟩
  · obtain ⟨s, rfl⟩ := execute_skill_body_ok_isStr mgr n td orig img v hb
    exact ⟨s, rfl⟩

/-- Full characterisation of the multi-step loop on a list of step dicts:
it succeeds, produces one record per step in declared order (record `k` is
step number `i+k` and names step `k`'s skill), hands step `k` the task
built by `step_task` from the previous record's result (the initial `ctx`
for the first step), and stores in each record exactly the output of
invoking `_execute_skill` on that step's skill and task. -/
theorem run_steps_spec (mgr : SkillMgr) (orig : Str) (stepKvs : List (List (Str × PyVal))) :
    ∀ i ctx, ∃ recs, SupervisorV2.run_steps mgr orig (stepKvs.map PyVal.dict) i ctx = .ok recs ∧
      recs.length = stepKvs.length ∧
      ∀ k, k < recs.length →
        (recs.getD k default).step = i + k ∧
        (recs.getD k default).skill = pyGet (stepKvs.getD k []) (lit ("skill")) ∧
        (recs.getD k default).task = SupervisorV2.step_task orig (stepKvs.getD k [])
          (if k = 0 then ctx else (recs.getD (k-1) default).result) ∧
        (recs.getD k default).result = SupervisorV2.execute_skill mgr (recs.getD k default).skill
          (recs.getD k default).task orig PyVal.none := by
  induction stepKvs with
  | nil =>
    intro i ctx
    exact ⟨[], rfl, rfl, by intro k hk; simp at hk⟩
  | cons kvs rest ih =>
    intro i ctx
    obtain ⟨s, hs⟩ := execute_skill_isStr mgr (pyGet kvs (lit ("skill")))
      (SupervisorV2.step_task orig kvs ctx) orig PyVal.none
    obtain ⟨recs', hok, hlen, hprops⟩ := ih (i + 1) (PyVal.str s)
    refine ⟨⟨i, pyGet kvs (lit ("skill")), SupervisorV2.step_task orig kvs ctx, PyVal.str s⟩ :: recs',
      ?_, by simp [hlen], ?_⟩
    · simp only [List.map_cons, SupervisorV2.run_steps, hs, hok]
    · intro k hk
      match k with
      | 0 =>
        refine ⟨by simp, by simp, by simp, ?_⟩
        simp only [List.getD_cons_zero]
        exact hs.symm
      | Nat.succ k' =>
        have hk' : k' < recs'.length := by
          simp only [List.length_cons] at hk
          omega
        obtain ⟨hstep, hskill, htask, hres⟩ := hprops k' hk'
        refine ⟨?_, ?_, ?_, ?_⟩
        · simp only [List.getD_cons_succ]
          rw [hstep]; omega
        · simp only [List.getD_cons_succ, List.getD_cons_succ]
          exact hskill
        · simp only [List.getD_cons_succ]
          rw [htask]
          match k' with
          | 0 => simp
          | Nat.succ k'' => simp
        · simp only [List.getD_cons_succ]
          exact hres

/-- The task handed to a step whose previous result was the string `s`
contains `s` (vacuously when `s` is empty, since then the source skips the
augmentation). -/
theorem step_task_contains (orig : Str) (kvs : List (Str × PyVal)) (s : Str) :
    ∃ p t, pyStr (SupervisorV2.step_task orig kvs (.str s)) = p ++ s ++ t := by
  cases s with
  | nil =>
    refine ⟨[], pyStr (pyGetD kvs (lit ("task")) (.str orig)), ?_⟩
    simp [SupervisorV2.step_task, PyVal.truthy]
  | cons c cs =>
    refine ⟨pyStr (pyGetD kvs (lit ("task")) (.str orig)) ++ lit ("\n\n이전 단계 결과:\n"), [], ?_⟩
    simp [SupervisorV2.step_task, PyVal.truthy, pyStr]

/-- Unfolding of the step loop on a dict step whose execution result is the
string `s`. -/
theorem run_steps_cons_dict (mgr : SkillMgr) (orig : Str) (kvs : List (Str × PyVal))
    (rest : List PyVal) (i : Nat) (ctx : PyVal) (s : Str)
    (hs : SupervisorV2.execute_skill mgr (pyGet kvs (lit ("skill")))
      (SupervisorV2.step_task orig kvs ctx) orig PyVal.none = PyVal.str s) :
    SupervisorV2.run_steps mgr orig (PyVal.dict kvs :: rest) i ctx =
      match SupervisorV2.run_steps mgr orig rest (i + 1) (PyVal.str s) with
      | .ok recs' => .ok (⟨i, pyGet kvs (lit ("skill")),
          SupervisorV2.step_task orig kvs ctx, PyVal.str s⟩ :: recs')
      | .error e => .error e := by
  simp only [SupervisorV2.run_steps, hs]

/-- Every record a successful step loop accumulates carries a string result. -/
theorem run_steps_ok_results_str (mgr : SkillMgr) (orig : Str) :
    ∀ (steps : List PyVal) (i : Nat) (ctx : PyVal) (recs : List SupervisorV2.StepRec),
      SupervisorV2.run_steps mgr orig steps i ctx = .ok recs →
      ∀ r ∈ recs, ∃ s, r.result = PyVal.str s := by
  intro steps
  induction steps with
  | nil =>
    intro i ctx recs h r hr
    simp only [SupervisorV2.run_steps] at h
    cases (Except.ok.inj h)
    simp at hr
  | cons stepV rest ih =>
    intro i ctx recs h r hr
    rcases stepV with sv | bv | iv | lv | kvs | _
    case dict =>
      obtain ⟨s, hs⟩ := execute_skill_isStr mgr (pyGet kvs (lit ("skill")))
        (SupervisorV2.step_task orig kvs ctx) orig PyVal.none
      rw [run_steps_cons_dict mgr orig kvs rest i ctx s hs] at h
      split at h
      · rename_i recs' hrecs'
        cases (Except.ok.inj h)
        rcases List.mem_cons.mp hr with rfl | hmem
        · exact ⟨s, rfl⟩
        · exact ih (i + 1) (PyVal.str s) recs' hrecs' r hmem
      · cases h
    all_goals simp only [SupervisorV2.run_steps] at h; cases h

/-- A successful `_execute_multi_step` returns a string (the last record's
result or the fixed no-result message). -/
theorem execute_multi_step_ok_isStr (mgr : SkillMgr) (plan : List (Str × PyVal))
    (orig : Str) (v : PyVal) (h : SupervisorV2.execute_multi_step mgr plan orig = .ok v) :
    ∃ s, v = PyVal.str s := by
  unfold SupervisorV2.execute_multi_step at h
  split at h
  · cases h
  · rename_i steps hsteps
    split at h
    · cases h
    · rename_i recs hrecs
      split at h
      · rename_i r hlast
        have hmem : r ∈ recs := by
          obtain ⟨hne, heq⟩ := List.mem_getLast?_eq_getLast (by rw [hlast]; rfl)
          rw [heq]
          exact List.getLast_mem hne
        obtain ⟨s, hs⟩ := run_steps_ok_results_str mgr orig steps 1 (.str []) recs hrecs r hmem
        exact ⟨s, by rw [← hs]; exact (Except.ok.inj h).symm⟩
      · exact ⟨_, (Except.ok.inj h).symm⟩

/-- `_execute_skill` on a skill name absent from the registry, as called by
the multi-step loop (no image data): the raised `ValueError` is caught and
rendered as the per-step error string. -/
theorem execute_skill_not_found (mgr : SkillMgr) (n td : PyVal) (orig : Str)
    (h : SkillManager.get_skill mgr n = Option.none) :
    SupervisorV2.execute_skill mgr n td orig PyVal.none =
      .str ((pyStr n ++ lit (" Skill 실행 중 오류: ")) ++
            (lit ("Skill not found: ") ++ pyStr n)) := by
  simp only [SupervisorV2.execute_skill, SupervisorV2.execute_skill_body,
    SkillManager.execute_skill, h, PyVal.truthy, Bool.false_eq_true, if_false]

/-- `findSome?` returns the image of the first element on which `f` fires. -/
theorem findSome?_first {α β : Type} (f : α → Option β) (d : α) :
    ∀ (l : List α) (m : Nat), m < l.length →
      (∀ k, k < m → f (l.getD k d) = Option.none) →
      ∀ b, f (l.getD m d) = some b → l.findSome? f = some b := by
  intro l
  induction l with
  | nil => intro m hm; simp at hm
  | cons a rest ih =>
    intro m hm hbefore b hb
    match m with
    | 0 =>
      simp only [List.getD_cons_zero] at hb
      simp [List.findSome?_cons, hb]
    | Nat.succ m' =>
      have ha : f a = Option.none := by simpa using hbefore 0 (Nat.succ_pos m')
      simp only [List.getD_cons_succ] at hb
      rw [List.findSome?_cons, ha]
      exact ih m' (by simpa using hm) (fun k hk => by simpa using hbefore (k + 1) (by omega)) b hb

/-- `find?` returns the first element satisfying `p`. -/
theorem find?_first {α : Type} (p : α → Bool) (d : α) :
    ∀ (l : List α) (m : Nat), m < l.length →
      (∀ k, k < m → p (l.getD k d) = false) →
      p (l.getD m d) = true → l.find? p = some (l.getD m d) := by
  intro l
  induction l with
  | nil => intro m hm; simp at hm
  | cons a rest ih =>
    intro m hm hbefore hp
    match m with
    | 0 =>
      simp only [List.getD_cons_zero] at hp ⊢
      simp [List.find?_cons_of_pos _ hp]
    | Nat.succ m' =>
      have ha : p a = false := by simpa using hbefore 0 (Nat.succ_pos m')
      rw [List.find?_cons_of_neg _ (by simp [ha])]
      simp only [List.getD_cons_succ] at hp ⊢
      exact ih m' (by simpa using hm) (fun k hk => by simpa using hbefore (k + 1) (by omega)) hp

/-- Every member's block occurs inside the concatenation of all blocks. -/
theorem record_blocks_contains (r : SupervisorV1.AgentRec) :
    ∀ (rs : List SupervisorV1.AgentRec), r ∈ rs →
      ∃ p t, SupervisorV1.record_blocks rs = p ++ SupervisorV1.record_block r ++ t := by
  intro rs
  induction rs with
  | nil => intro hr; simp at hr
  | cons a rest ih =>
    intro hr
    rcases List.mem_cons.mp hr with rfl | hmem
    · exact ⟨[], SupervisorV1.record_blocks rest, by simp [SupervisorV1.record_blocks]⟩
    · obtain ⟨p, t, hp⟩ := ih hmem
      exact ⟨SupervisorV1.record_block a ++ p, t,
        by simp [SupervisorV1.record_blocks, hp, List.append_assoc]⟩

/-! ### Claim theorems -/

/-- C1: for every registry, generation collaborator, JSON decoder, request
text and image payload, `SupervisorAgentV2.execute` returns a string — it
never propagates an exception to its caller (every raise inside the model is
an `Except.error` consumed by one of the embedded `except` handlers), and
this holds in particular when the plan is empty, when every step fails, and
when the collaborator always fails (`llm` may be the constant error
function). -/
theorem claim_C1 (mgr : SkillMgr) (llm : Str → Except Str Str)
    (jsonLoads : Str → Except Str (List (Str × PyVal)))
    (user_input : Str) (image_data : PyVal) :
    ∃ s, SupervisorV2.execute mgr llm jsonLoads user_input image_data = PyVal.str s := by
  unfold SupervisorV2.execute
  rcases hq : SupervisorV2.quick_route user_input with _ | skill
  · simp only []
    by_cases hm : (pyGet (SupervisorV2.llm_route llm jsonLoads user_input) (lit ("multi_step"))).truthy
    · simp only [hm, if_true]
      rcases he : SupervisorV2.execute_multi_step mgr
        (SupervisorV2.llm_route llm jsonLoads user_input) user_input with e | v
      · exact ⟨_, rfl⟩
      · obtain ⟨s, rfl⟩ := execute_multi_step_ok_isStr _ _ _ _ he
        exact ⟨s, rfl⟩
    · simp only [Bool.not_eq_true] at hm
      simp only [hm, Bool.false_eq_true, if_false]
      obtain ⟨s, hs⟩ := execute_skill_isStr mgr
        (pyGet (SupervisorV2.llm_route llm jsonLoads user_input) (lit ("skill")))
        (pyGetD (SupervisorV2.llm_route llm jsonLoads user_input) (lit ("task")) (.str user_input))
        user_input image_data
      exact ⟨s, by rw [hs]⟩
  · simp only []
    obtain ⟨s, hs⟩ := execute_skill_isStr mgr (.str skill) (.str user_input) user_input image_data
    exact ⟨s, by rw [hs]⟩

/-- C2: the multi-step executor, run on the `n` step dicts of a plan,
succeeds and accumulates exactly `n` StepResults in declared order (record
`k` is numbered `k+1` and names step `k`'s skill); each record's result is
exactly the output of invoking `_execute_skill` on that record's skill and
task (strict sequentiality: each task is built before the next step runs);
and for every step `k+1` the task handed to its invocation contains the
rendered textual output of step `k` as a substring. -/
theorem claim_C2 (mgr : SkillMgr) (orig : Str) (stepKvs : List (List (Str × PyVal))) :
    ∃ recs, SupervisorV2.run_steps mgr orig (stepKvs.map PyVal.dict) 1 (.str []) = .ok recs ∧
      recs.length = stepKvs.length ∧
      (∀ k, k < recs.length →
        (recs.getD k default).step = k + 1 ∧
        (recs.getD k default).skill = pyGet (stepKvs.getD k []) (lit ("skill")) ∧
        (recs.getD k default).result = SupervisorV2.execute_skill mgr
          (recs.getD k default).skill (recs.getD k default).task orig PyVal.none) ∧
      (∀ k, k + 1 < recs.length →
        ∃ p t, pyStr ((recs.getD (k + 1) default).task) =
          p ++ pyStr ((recs.getD k default).result) ++ t) := by
  obtain ⟨recs, hok, hlen, hprops⟩ := run_steps_spec mgr orig stepKvs 1 (.str [])
  refine ⟨recs, hok, hlen, ?_, ?_⟩
  · intro k hk
    obtain ⟨h1, h2, _, h4⟩ := hprops k hk
    refine ⟨by rw [h1]; omega, h2, h4⟩
  · intro k hk
    have hk0 : k < recs.length := by omega
    obtain ⟨_, _, htask, _⟩ := hprops (k + 1) hk
    obtain ⟨_, _, _, hres⟩ := hprops k hk0
    obtain ⟨s', hs'⟩ := execute_skill_isStr mgr ((recs.getD k default).skill)
      ((recs.getD k default).task) orig PyVal.none
    have hres' : (recs.getD k default).result = PyVal.str s' := hres.trans hs'
    rw [htask]
    have hne : k + 1 ≠ 0 := Nat.succ_ne_zero k
    rw [if_neg hne]
    simp only [Nat.add_sub_cancel]
    rw [hres']
    simpa [pyStr] using step_task_contains orig (stepKvs.getD (k + 1) []) s'

/-- Witness for C2: a concrete two-step plan run against an empty registry
yields exactly two StepResults. -/
theorem claim_C2_witness :
    (match SupervisorV2.run_steps [] (lit ("질의"))
        ([[(lit ("skill"), PyVal.str (lit ("x")))],
          [(lit ("skill"), PyVal.str (lit ("y")))]].map PyVal.dict) 1 (PyVal.str []) with
      | .ok recs => recs.length
      | .error _ => 0) = 2 := by
  obtain ⟨recs, hok, hlen, _, _⟩ := claim_C2 [] (lit ("질의"))
    [[(lit ("skill"), PyVal.str (lit ("x")))], [(lit ("skill"), PyVal.str (lit ("y")))]]
  rw [hok]
  exact hlen

/-- C3: if step `j` of a multi-step plan names a skill absent from the
registry, the loop still succeeds with one StepResult per step; step `j`'s
result degrades to the error string rendering the uncaught-at-step
`ValueError` (`Skill not found`), and every step (including those after
`j`) still records the output of its own invocation. -/
theorem claim_C3 (mgr : SkillMgr) (orig : Str) (stepKvs : List (List (Str × PyVal))) (j : Nat)
    (hj : j < stepKvs.length)
    (habs : SkillManager.get_skill mgr (pyGet (stepKvs.getD j []) (lit ("skill"))) = Option.none) :
    ∃ recs, SupervisorV2.run_steps mgr orig (stepKvs.map PyVal.dict) 1 (.str []) = .ok recs ∧
      recs.length = stepKvs.length ∧
      (recs.getD j default).result =
        .str ((pyStr (pyGet (stepKvs.getD j []) (lit ("skill"))) ++ lit (" Skill 실행 중 오류: ")) ++
              (lit ("Skill not found: ") ++ pyStr (pyGet (stepKvs.getD j []) (lit ("skill"))))) ∧
      ∀ k, k < recs.length → (recs.getD k default).result = SupervisorV2.execute_skill mgr
        (recs.getD k default).skill (recs.getD k default).task orig PyVal.none := by
  obtain ⟨recs, hok, hlen, hprops⟩ := run_steps_spec mgr orig stepKvs 1 (.str [])
  have hjr : j < recs.length := by rw [hlen]; exact hj
  obtain ⟨_, hskill, _, hres⟩ := hprops j hjr
  refine ⟨recs, hok, hlen, ?_, fun k hk => (hprops k hk).2.2.2⟩
  rw [hres, hskill, execute_skill_not_found mgr (pyGet (stepKvs.getD j []) (lit ("skill")))
    ((recs.getD j default).task) orig habs]

/-- Witness for C3: a two-step plan whose second step names the unregistered
skill `ghost` still yields two StepResults, the second being the error
string. -/
theorem claim_C3_witness :
    (match SupervisorV2.run_steps [(lit ("known"), w3_skill)] (lit ("질의"))
        ([[(lit ("skill"), PyVal.str (lit ("known")))],
          [(lit ("skill"), PyVal.str (lit ("ghost")))]].map PyVal.dict) 1 (PyVal.str []) with
      | .ok recs => recs.length = 2 ∧ (recs.getD 1 default).result =
          PyVal.str (lit ("ghost Skill 실행 중 오류: Skill not found: ghost"))
      | .error _ => False) := by
  obtain ⟨recs, hok, hlen, hres, _⟩ := claim_C3 [(lit ("known"), w3_skill)] (lit ("질의"))
    [[(lit ("skill"), PyVal.str (lit ("known")))], [(lit ("skill"), PyVal.str (lit ("ghost")))]]
    1 (by decide) rfl
  rw [hok]
  exact ⟨hlen, by rw [hres]; exact congrArg PyVal.str (by decide)⟩

/-- C10: `SkillManager.execute_skill` returns, when it returns, a mapping
that always carries `success`, `skill` and `task`; for a registered,
validated skill a raising `execute` is converted to the `success=false`
wrapper carrying the exception text under `error` (never re-raised), and a
normal `execute` to the `success=true` wrapper carrying the output under
`result`; conversely it only raises for an unknown skill or failed
validation. -/
theorem claim_C10 (mgr : SkillMgr) (skill_name : PyVal) (task : Str) (context : PyVal) :
    (∀ v, SkillManager.execute_skill mgr skill_name task context = .ok v →
      ∃ kvs, v = PyVal.dict kvs ∧
        (dictFind kvs (lit ("success"))).isSome = true ∧
        (dictFind kvs (lit ("skill"))).isSome = true ∧
        (dictFind kvs (lit ("task"))).isSome = true) ∧
    (∀ sk, SkillManager.get_skill mgr skill_name = some sk →
      sk.validate_input task (if context.truthy then context else .dict []) = true →
      (∀ e, sk.execute task context = .error e →
        SkillManager.execute_skill mgr skill_name task context =
          .ok (.dict (SkillManager.error_wrapper skill_name task e)) ∧
        pyGet (SkillManager.error_wrapper skill_name task e) (lit ("success")) = .bool false ∧
        pyGet (SkillManager.error_wrapper skill_name task e) (lit ("error")) = .str e) ∧
      (∀ r, sk.execute task context = .ok r →
        SkillManager.execute_skill mgr skill_name task context =
          .ok (.dict (SkillManager.success_wrapper skill_name task r)) ∧
        pyGet (SkillManager.success_wrapper skill_name task r) (lit ("success")) = .bool true ∧
        pyGet (SkillManager.success_wrapper skill_name task r) (lit ("result")) = r)) ∧
    (∀ e, SkillManager.execute_skill mgr skill_name task context = .error e →
      SkillManager.get_skill mgr skill_name = Option.none ∨
      ∃ sk, SkillManager.get_skill mgr skill_name = some sk ∧
        sk.validate_input task (if context.truthy then context else .dict []) = false) := by
  refine ⟨?_, ?_, ?_⟩
  · intro v hv
    rcases execute_skill_ok_shape mgr skill_name task context v hv with ⟨r, rfl⟩ | ⟨e, rfl⟩
    · exact ⟨_, rfl, rfl, rfl, rfl⟩
    · exact ⟨_, rfl, rfl, rfl, rfl⟩
  · intro sk hsk hval
    constructor
    · intro e he
      refine ⟨?_, rfl, rfl⟩
      simp only [SkillManager.execute_skill, hsk, hval, he, Bool.not_true,
        Bool.false_eq_true, if_false]
    · intro r hr
      refine ⟨?_, rfl, rfl⟩
      simp only [SkillManager.execute_skill, hsk, hval, hr, Bool.not_true,
        Bool.false_eq_true, if_false]
  · intro e he
    rcases hg : SkillManager.get_skill mgr skill_name with _ | sk
    · exact Or.inl rfl
    · refine Or.inr ⟨sk, rfl, ?_⟩
      simp only [SkillManager.execute_skill, hg] at he
      rcases hv : sk.validate_input task (if context.truthy then context else .dict []) with _ | _
      · rfl
      · simp only [hv, Bool.not_true, Bool.false_eq_true, if_false] at he
        rcases hex : sk.execute task context with e' | r' <;> rw [hex] at he <;> cases he

/-- Witness for C10: a registered skill whose `execute` raises `boom` yields
the error wrapper, not an exception. -/
theorem claim_C10_witness :
    SkillManager.execute_skill [(lit ("k"), w10_skill)] (.str (lit ("k"))) (lit ("t")) (.dict []) =
      .ok (.dict (SkillManager.error_wrapper (.str (lit ("k"))) (lit ("t")) (lit ("boom")))) :=
  (((claim_C10 [(lit ("k"), w10_skill)] (.str (lit ("k"))) (lit ("t")) (.dict [])).2.1
    w10_skill rfl rfl).1 (lit ("boom")) rfl).1

/-- C4: if the keywords of the quick-route table entries before index `i`
all miss the request text and some keyword of entry `i` occurs in it, then
`quick_route` answers entry `i`'s skill (table order is the tie-break), the
whole `execute` runs exactly the single-step `_execute_skill` invocation on
that skill, and the outcome is identical for any two generation
collaborators and JSON decoders — the collaborator is never consulted. -/
theorem claim_C4 (mgr : SkillMgr) (llm1 llm2 : Str → Except Str Str)
    (jl1 jl2 : Str → Except Str (List (Str × PyVal)))
    (user_input : Str) (img : PyVal) (i : Nat)
    (hi : i < SupervisorV2.keywords_map.length)
    (hbefore : ∀ k, k < i →
      ∀ kw ∈ (SupervisorV2.keywords_map.getD k ([], [])).2, strIn kw user_input = false)
    (hmatch : ∃ kw ∈ (SupervisorV2.keywords_map.getD i ([], [])).2, strIn kw user_input = true) :
    SupervisorV2.quick_route user_input = some (SupervisorV2.keywords_map.getD i ([], [])).1 ∧
    SupervisorV2.execute mgr llm1 jl1 user_input img =
      SupervisorV2.execute_skill mgr (.str (SupervisorV2.keywords_map.getD i ([], [])).1)
        (.str user_input) user_input img ∧
    SupervisorV2.execute mgr llm1 jl1 user_input img =
      SupervisorV2.execute mgr llm2 jl2 user_input img := by
  have hq : SupervisorV2.quick_route user_input =
      some (SupervisorV2.keywords_map.getD i ([], [])).1 := by
    apply findSome?_first _ ([], []) _ i hi
    · intro k hk
      have hnone := hbefore k hk
      apply if_neg
      intro hc
      obtain ⟨kw, hkw, hstr⟩ := List.any_eq_true.mp hc
      rw [hnone kw hkw] at hstr
      cases hstr
    · apply if_pos
      obtain ⟨kw, hkw, hstr⟩ := hmatch
      exact List.any_eq_true.mpr ⟨kw, hkw, hstr⟩
  have hx : ∀ (llm : Str → Except Str Str) (jl : Str → Except Str (List (Str × PyVal))),
      SupervisorV2.execute mgr llm jl user_input img =
        SupervisorV2.execute_skill mgr (.str (SupervisorV2.keywords_map.getD i ([], [])).1)
          (.str user_input) user_input img := by
    intro llm jl
    simp only [SupervisorV2.execute, hq]
  exact ⟨hq, hx llm1 jl1, (hx llm1 jl1).trans (hx llm2 jl2).symm⟩

/-- Witness for C4: "통계와 보고서" matches both the analytics and report
keyword sets; analytics is first in table order and wins, and the result
does not depend on the generation collaborator. -/
theorem claim_C4_witness :
    SupervisorV2.quick_route (lit ("통계와 보고서")) = some (lit ("data_analytics")) ∧
    SupervisorV2.execute [] w4_llm1 w4_jl (lit ("통계와 보고서")) PyVal.none =
      SupervisorV2.execute [] w4_llm2 w4_jl (lit ("통계와 보고서")) PyVal.none := by
  obtain ⟨h1, _, h3⟩ := claim_C4 [] w4_llm1 w4_llm2 w4_jl w4_jl (lit ("통계와 보고서"))
    PyVal.none 0 (by decide) (fun k hk => absurd hk (Nat.not_lt_zero k)) (by decide)
  exact ⟨h1, h3⟩

/-- C5: for a skill with a declared keyword table, `_determine_task` returns
the task of the first keyword (in declared order) occurring in the text,
and the skill's declared default task when no keyword matches
(`default_tasks.get(skill, 'execute')`); it is a total function and is
trivially idempotent (no hidden state in the model, matching the source's
statelessness). -/
theorem claim_C5 (input sname : Str) (entry : Str × List (Str × Str))
    (htbl : SupervisorV2.task_mapping.find? (fun kv => kv.1 == sname) = some entry) :
    ((∀ kt ∈ entry.2, strIn kt.1 input = false) →
      SupervisorV2.determine_task input (.str sname) =
        ((SupervisorV2.default_tasks.find? (fun kv => kv.1 == sname)).map
          (fun kv => kv.2)).getD (lit ("execute"))) ∧
    (∀ m, m < entry.2.length →
      (∀ k, k < m → strIn ((entry.2.getD k ([], [])).1) input = false) →
      strIn ((entry.2.getD m ([], [])).1) input = true →
      SupervisorV2.determine_task input (.str sname) = (entry.2.getD m ([], [])).2) ∧
    SupervisorV2.determine_task input (.str sname) =
      SupervisorV2.determine_task input (.str sname) := by
  refine ⟨?_, ?_, rfl⟩
  · intro hnone
    have hfind : entry.2.find? (fun kt => strIn kt.1 input) = Option.none := by
      rw [List.find?_eq_none]
      intro x hx
      simp [hnone x hx]
    simp only [SupervisorV2.determine_task, htbl, hfind, Option.map_none']
  · intro m hm hbefore hp
    have hfind := find?_first (fun kt => strIn kt.1 input) ([], []) entry.2 m hm hbefore hp
    simp only [SupervisorV2.determine_task, htbl, hfind, Option.map_some']

/-- Witness for C5: in "추세 알려줘" the first matching analytics keyword is
`추세` (the earlier `통계` misses), resolving to `analyze_trend`. -/
theorem claim_C5_witness :
    SupervisorV2.determine_task (lit ("추세 알려줘")) (.str (lit ("data_analytics"))) =
      lit ("analyze_trend") := by
  have h := (claim_C5 (lit ("추세 알려줘")) (lit ("data_analytics"))
    ((lit ("data_analytics")),
     [(lit ("통계"), lit ("calculate_statistics")),
      (lit ("추세"), lit ("analyze_trend")),
      (lit ("위험도"), lit ("assess_risk")),
      (lit ("비교"), lit ("compare_periods")),
      (lit ("많은"), lit ("find_top_cameras"))]) rfl).2.1 1 (by decide)
    (by intro k hk
        have hz : k = 0 := by omega
        subst hz
        decide)
    (by decide)
  exact h

/-- C6: whenever the routing call itself raises, or its response holds no
brace-delimited JSON object, or `json.loads` on the extract raises,
`llm_route` returns the deterministic fallback plan: it names the default
skill `knowledge_management`, has `multi_step = false` (so `execute` runs it
as exactly one step), carries the request as its task, and records the
failure in its reason string (`오류 발생: ...` or
`파싱 실패, 기본값 사용`). -/
theorem claim_C6 (llm : Str → Except Str Str)
    (jl : Str → Except Str (List (Str × PyVal))) (input : Str) :
    (∀ e, llm (SupervisorV2.routing_prompt input) = .error e →
      SupervisorV2.llm_route llm jl input =
        SupervisorV2.km_fallback input (lit ("오류 발생: ") ++ e)) ∧
    (∀ c, llm (SupervisorV2.routing_prompt input) = .ok c →
      SupervisorV2.jsonMatch (SupervisorV2.pyStrip (SupervisorV2.strReplace
        (SupervisorV2.strReplace c (lit ("```json")) []) (lit ("```")) [])) = Option.none →
      SupervisorV2.llm_route llm jl input =
        SupervisorV2.km_fallback input (lit ("파싱 실패, 기본값 사용"))) ∧
    (∀ c j e, llm (SupervisorV2.routing_prompt input) = .ok c →
      SupervisorV2.jsonMatch (SupervisorV2.pyStrip (SupervisorV2.strReplace
        (SupervisorV2.strReplace c (lit ("```json")) []) (lit ("```")) [])) = some j →
      jl j = .error e →
      SupervisorV2.llm_route llm jl input =
        SupervisorV2.km_fallback input (lit ("오류 발생: ") ++ e)) ∧
    (∀ r, pyGet (SupervisorV2.km_fallback input r) (lit ("skill")) =
        .str (lit ("knowledge_management")) ∧
      pyGet (SupervisorV2.km_fallback input r) (lit ("multi_step")) = .bool false ∧
      pyGet (SupervisorV2.km_fallback input r) (lit ("task")) = .str input ∧
      pyGet (SupervisorV2.km_fallback input r) (lit ("reason")) = .str r) := by
  refine ⟨?_, ?_, ?_, fun r => ⟨rfl, rfl, rfl, rfl⟩⟩
  · intro e he
    simp only [SupervisorV2.llm_route, he]
  · intro c hc hj
    simp only [SupervisorV2.llm_route, hc, hj]
  · intro c j e hc hj hjl
    simp only [SupervisorV2.llm_route, hc, hj, hjl]

/-- Witness for C6: a raising routing call yields the fallback plan naming
`knowledge_management` with the failure recorded. -/
theorem claim_C6_witness :
    SupervisorV2.llm_route c6_llm c6_jl (lit ("안녕")) =
      SupervisorV2.km_fallback (lit ("안녕")) (lit ("오류 발생: Deadline Exceeded")) :=
  (claim_C6 c6_llm c6_jl (lit ("안녕"))).1 (lit ("Deadline Exceeded")) rfl

/-- Counterexample to C7 as stated: the generation collaborator can answer
with the valid JSON object `\x7b"multi_step": true, "steps": []\x7d`; the
Router returns that parsed plan verbatim, so its terminal Plan is marked
multi-step yet carries an empty steps list — not well-formed per the
spec's "at least one Step" invariant. -/
theorem claim_C7_cex :
    (pyGet (SupervisorV2.llm_route c7_llm c7_jl (lit ("질문"))) (lit ("multi_step"))).truthy
      = true ∧
    pyGet (SupervisorV2.llm_route c7_llm c7_jl (lit ("질문"))) (lit ("steps")) = PyVal.list [] :=
  ⟨rfl, rfl⟩

/-- C7 as amended: every Plan `llm_route` yields is either the successfully
parsed collaborator object returned verbatim (well-formed only if that
object is), or one of the fallback plans, which always name
`knowledge_management` as a single step (`multi_step = false`). -/
theorem claim_C7_amended (llm : Str → Except Str Str)
    (jl : Str → Except Str (List (Str × PyVal))) (input : Str) :
    (∃ c j kvs, llm (SupervisorV2.routing_prompt input) = .ok c ∧
      SupervisorV2.jsonMatch (SupervisorV2.pyStrip (SupervisorV2.strReplace
        (SupervisorV2.strReplace c (lit ("```json")) []) (lit ("```")) [])) = some j ∧
      jl j = .ok kvs ∧ SupervisorV2.llm_route llm jl input = kvs) ∨
    (pyGet (SupervisorV2.llm_route llm jl input) (lit ("skill")) =
        .str (lit ("knowledge_management")) ∧
      pyGet (SupervisorV2.llm_route llm jl input) (lit ("multi_step")) = .bool false) := by
  rcases hl : llm (SupervisorV2.routing_prompt input) with e | c
  · right
    simp only [SupervisorV2.llm_route, hl]
    exact ⟨rfl, rfl⟩
  · rcases hj : SupervisorV2.jsonMatch (SupervisorV2.pyStrip (SupervisorV2.strReplace
        (SupervisorV2.strReplace c (lit ("```json")) []) (lit ("```")) [])) with _ | j
    · right
      simp only [SupervisorV2.llm_route, hl, hj]
      exact ⟨rfl, rfl⟩
    · rcases hjl : jl j with e | kvs
      · right
        simp only [SupervisorV2.llm_route, hl, hj, hjl]
        exact ⟨rfl, rfl⟩
      · left
        refine ⟨c, j, kvs, ?_, ?_, ?_, ?_⟩
        · rfl
        · exact hj
        · exact hjl
        · simp only [SupervisorV2.llm_route, hl, hj, hjl]

/-- Counterexample to C8 as stated: a SupervisorAgentV2 execution that
accumulates two StepResults never performs any synthesis — its collaborator
(`c8_llm`) succeeds on every prompt with the constant answer `c8_resp`,
yet the final response is the second step's error string, which differs
from that constant; so no generation call produced the response (and the
claimed consolidated-answer pass does not exist in V2). -/
theorem claim_C8_cex :
    (match SupervisorV2.run_steps [] c8_input c8_steps 1 (PyVal.str []) with
      | .ok recs => recs.length
      | .error _ => 0) = 2 ∧
    SupervisorV2.execute [] c8_llm c8_jl c8_input PyVal.none =
      PyVal.str (lit ("b Skill 실행 중 오류: Skill not found: b")) ∧
    lit ("b Skill 실행 중 오류: Skill not found: b") ≠ c8_resp :=
  ⟨rfl, rfl, by decide⟩

/-- C8 as amended: in SupervisorAgent (V1), with more than one StepResult
the synthesizer makes one generation call on a prompt that contains every
step's block (step number, agent, task, content) and the original request,
returns its answer on success and the last StepResult's content on failure
(never the synthesis error); in SupervisorAgentV2, multi-step execution
returns the last StepResult's content directly, with no synthesis call. -/
theorem claim_C8_amended :
    (∀ (llm : Str → Except Str Str) (orig : Str) (r1 r2 : SupervisorV1.AgentRec)
      (rest : List SupervisorV1.AgentRec),
      (∀ c, llm (SupervisorV1.synthesis_prompt orig (r1 :: r2 :: rest)) = .ok c →
        SupervisorV1.synthesize_results llm (r1 :: r2 :: rest) orig = c) ∧
      (∀ e, llm (SupervisorV1.synthesis_prompt orig (r1 :: r2 :: rest)) = .error e →
        SupervisorV1.synthesize_results llm (r1 :: r2 :: rest) orig =
          ((r1 :: r2 :: rest).getLastD r1).result) ∧
      (∀ r ∈ r1 :: r2 :: rest, ∃ p t, SupervisorV1.synthesis_prompt orig (r1 :: r2 :: rest) =
        p ++ SupervisorV1.record_block r ++ t) ∧
      (∃ p t, SupervisorV1.synthesis_prompt orig (r1 :: r2 :: rest) = p ++ orig ++ t)) ∧
    (∀ (mgr : SkillMgr) (plan : List (Str × PyVal)) (orig : Str) (steps : List PyVal)
      (recs : List SupervisorV2.StepRec) (last : SupervisorV2.StepRec),
      SupervisorV2.iter_steps (pyGetD plan (lit ("steps")) (.list [])) = .ok steps →
      SupervisorV2.run_steps mgr orig steps 1 (.str []) = .ok recs →
      recs.getLast? = some last →
      SupervisorV2.execute_multi_step mgr plan orig = .ok last.result) := by
  constructor
  · intro llm orig r1 r2 rest
    refine ⟨?_, ?_, ?_, ?_⟩
    · intro c hc
      simp only [SupervisorV1.synthesize_results, hc]
    · intro e he
      simp only [SupervisorV1.synthesize_results, he]
    · intro r hr
      obtain ⟨p, t, hp⟩ := record_blocks_contains r (r1 :: r2 :: rest) hr
      refine ⟨SupervisorV1.synthesis_header orig ++ p, t ++ SupervisorV1.synthesis_footer, ?_⟩
      simp [SupervisorV1.synthesis_prompt, hp, List.append_assoc]
    · refine ⟨lit ("다음은 사용자 요청을 처리한 여러 단계의 결과입니다.\n\n                        사용자 원래 요청: "),
        lit ("\n                        \n                        단계별 결과:\n                        ") ++
          SupervisorV1.record_blocks (r1 :: r2 :: rest) ++ SupervisorV1.synthesis_footer, ?_⟩
      simp [SupervisorV1.synthesis_prompt, SupervisorV1.synthesis_header, List.append_assoc]
  · intro mgr plan orig steps recs last hsteps hrecs hlast
    simp only [SupervisorV2.execute_multi_step, hsteps, hrecs, hlast]

/-- Witness for the amended C8: a failing synthesis call falls back to the
last of two V1 step results, and a one-step V2 plan returns its (here
error-shaped) last StepResult directly. -/
theorem claim_C8_witness :
    SupervisorV1.synthesize_results c8w_llmfail [c8w_r1, c8w_r2] (lit ("요청")) =
      lit ("보고서 본문") ∧
    SupervisorV2.execute_multi_step [] [(lit ("steps"), PyVal.list [PyVal.dict []])] c8_input =
      .ok (PyVal.str (lit ("None Skill 실행 중 오류: Skill not found: None"))) := by
  obtain ⟨h1, h2⟩ := claim_C8_amended
  constructor
  · exact (h1 c8w_llmfail (lit ("요청")) c8w_r1 c8w_r2 []).2.1 (lit ("synthesis down")) rfl
  · exact h2 [] [(lit ("steps"), PyVal.list [PyVal.dict []])] c8_input [PyVal.dict []]
      [⟨1, PyVal.none, PyVal.str c8_input,
        PyVal.str (lit ("None Skill 실행 중 오류: Skill not found: None"))⟩]
      ⟨1, PyVal.none, PyVal.str c8_input,
        PyVal.str (lit ("None Skill 실행 중 오류: Skill not found: None"))⟩ rfl rfl rfl

/-- C9 (code evaluated at the failing input): a quick-routed single-step
request served by a registered skill returning `\x7b"report": "안전 보고서"\x7d`
does NOT yield the report text — `_execute_skill` hands `_format_result`
the success-wrapper from `SkillManager.execute_skill`, which carries none
of the extraction keys, so the final response is the raw `json.dumps` of
the whole wrapper; the report text sits untouched under its `result` key.
No generation-collaborator call is involved (the oracles here always
raise and the run still succeeds). -/
theorem claim_C9 :
    SupervisorV2.execute c9_mgr c9_llm c9_jl c9_input PyVal.none =
      PyVal.str (jsonDumps (PyVal.dict (SkillManager.success_wrapper
        (PyVal.str (lit ("report_generation"))) (lit ("generate_event_report"))
        (PyVal.dict [(lit ("report"), PyVal.str (lit ("안전 보고서")))])))) ∧
    pyGet (SkillManager.success_wrapper (PyVal.str (lit ("report_generation")))
        (lit ("generate_event_report"))
        (PyVal.dict [(lit ("report"), PyVal.str (lit ("안전 보고서")))])) (lit ("result")) =
      PyVal.dict [(lit ("report"), PyVal.str (lit ("안전 보고서")))] ∧
    jsonDumps (PyVal.dict (SkillManager.success_wrapper
        (PyVal.str (lit ("report_generation"))) (lit ("generate_event_report"))
        (PyVal.dict [(lit ("report"), PyVal.str (lit ("안전 보고서")))]))) ≠
      lit ("안전 보고서") :=
  ⟨rfl, rfl, by decide⟩

end Monitoring
